import Mathlib

/-!
Shallow embedding of `news_aggregator.py` (MikeKorsikov/news_aggregator).

The script is a linear pipeline: fetch news articles from an HTTP API
(with a mock fallback), summarize them through an LLM call (with a
deterministic fallback), save the summary to a timestamped file, driven
by a scheduler loop.

Modelling conventions:
- Python exceptions are modelled by `Except PyExc`; a `try/except` block
  is a `match` on the body result, re-raising the exception kinds the
  handler does not name.
- Outcomes of external calls (HTTP GET, LLM chat completion, file write)
  are supplied by a `World` record: each call site consults the world, so
  quantifying over `World` quantifies over every sequence of external
  outcomes.  Transport failures of `requests.get` surface as
  `requests.RequestException` (constructor `PyExc.requestException`); the
  file write fails only with `IOError` (constructor `PyExc.ioError`), the
  failure class the spec assigns to persistence; the LLM call may fail
  arbitrarily and the error payload is an opaque message string.
- Raw API articles follow the documented response shape: `title` and
  `description` may be absent or empty (the code tests them for Python
  truthiness), while `url`, `publishedAt` and `source.name` are present,
  as the external-interface section of the spec states.
- Side effects relevant to the claims are made observable: the list of
  HTTP requests issued (category and pageSize per request), the list of
  prompts sent to the LLM, whether an error was logged by `save_summary`.
-/

set_option autoImplicit false

/-- Python truthiness of an optional string: `None` and `""` are falsy. -/
def truthy : Option String → Bool
  | none => false
  | some s => !s.isEmpty

/-- Python exception kinds raised or caught in the script. -/
inductive PyExc where
  | requestException
  | valueError
  | ioError
  deriving DecidableEq, Repr

/-- The `NewsArticle` dataclass. -/
structure NewsArticle where
  title : String
  description : String
  url : String
  published_at : String
  source : String
  deriving DecidableEq, Repr

/-- One element of the `articles` array of a JSON response from the news
API, in the documented shape: `title` and `description` optional (absent
maps to `none`; present but empty is `some ""`), the remaining fields
present. -/
structure RawArticle where
  title : Option String
  description : Option String
  url : String
  publishedAt : String
  sourceName : String
  deriving DecidableEq, Repr

/-- Environment variables read via `os.getenv`. -/
structure Env where
  news_api_key : Option String
  openai_api_key : Option String
  deriving DecidableEq, Repr

/-- Configuration held by a constructed `NewsAggregator` instance. -/
structure Config where
  news_api_key : Option String
  openai_api_key : Option String
  deriving DecidableEq, Repr

/-- External outcomes for one pipeline run: the parsed body (or transport
failure) of each HTTP GET keyed by category and pageSize, the LLM
completion (or failure) keyed by prompt, the write outcome keyed by
filename and contents, and the strings `datetime.now()` formats to. -/
structure World where
  netResponse : String → Nat → Except String (List RawArticle)
  llmResponse : String → Except String String
  writeOutcome : String → String → Except String Unit
  today : String
  timestamp : String

/-- The fixed category list `self.categories`. -/
def categories : List String := ["business", "technology", "consumer goods"]

/-- The body of `_get_mock_articles`. -/
def get_mock_articles : List NewsArticle :=
  [ { title := "Tech Giants Report Strong Q3 Earnings"
    , description := "Major technology companies exceeded expectations in their quarterly reports."
    , url := "https://example.com/tech-earnings"
    , published_at := "2024-01-15T10:00:00Z"
    , source := "TechNews" }
  , { title := "Global Markets Show Positive Momentum"
    , description := "Stock markets worldwide continue upward trend amid economic recovery."
    , url := "https://example.com/markets"
    , published_at := "2024-01-15T09:30:00Z"
    , source := "FinanceDaily" } ]

/-- Conversion of a raw article into a `NewsArticle`, as built at lines
84-90 of the source (only reached when `title` and `description` are
truthy, so the defaults are never observed). -/
def convertArticle (a : RawArticle) : NewsArticle :=
  { title := a.title.getD ""
  , description := a.description.getD ""
  , url := a.url
  , published_at := a.publishedAt
  , source := a.sourceName }

/-- The inner `for article in data.get('articles', [])` loop of
`fetch_news_articles`: keep, in order, the articles whose `title` and
`description` are both truthy. -/
def collectArticles : List RawArticle → List NewsArticle
  | [] => []
  | a :: rest =>
    if truthy a.title && truthy a.description then
      convertArticle a :: collectArticles rest
    else
      collectArticles rest

/-- The `for category in self.categories` loop inside the `try` block of
`fetch_news_articles`.  Returns the requests issued (category, pageSize)
in order, and either the accumulated articles or the first exception:
a transport failure raises `requests.RequestException` and aborts the
loop. -/
def fetchLoop (w : World) (ps : Nat) :
    List String → List (String × Nat) × Except PyExc (List NewsArticle)
  | [] => ([], .ok [])
  | c :: rest =>
    match w.netResponse c ps with
    | .error _ => ([(c, ps)], .error .requestException)
    | .ok raws =>
      let r := fetchLoop w ps rest
      ((c, ps) :: r.1, r.2.map (fun l => collectArticles raws ++ l))

/-- Result of `fetch_news_articles`: the returned value (or propagated
exception) together with the HTTP requests issued. -/
structure FetchResult where
  articles : Except PyExc (List NewsArticle)
  requests : List (String × Nat)
  deriving Repr

/-- The body of `fetch_news_articles(limit=20)`: mock data when the news
API key is not truthy (no request issued); otherwise one GET per category
with `pageSize = limit // len(categories)`, where the handler
`except requests.RequestException` replaces everything by the mock list
and any other exception propagates; on success the accumulated list is
sliced to `articles[:limit]`. -/
def fetch_news_articles (cfg : Config) (w : World) (limit : Nat := 20) :
    FetchResult :=
  if truthy cfg.news_api_key = false then
    { articles := .ok get_mock_articles, requests := [] }
  else
    let ps := limit / categories.length
    let r := fetchLoop w ps categories
    match r.2 with
    | .ok arts => { articles := .ok (arts.take limit), requests := r.1 }
    | .error .requestException =>
      { articles := .ok get_mock_articles, requests := r.1 }
    | .error e => { articles := .error e, requests := r.1 }

/-- The per-article block of `articles_text` in `generate_news_summary`. -/
def articleBlock (a : NewsArticle) : String :=
  "Title: " ++ a.title ++ "\n" ++
  "Description: " ++ a.description ++ "\n" ++
  "Source: " ++ a.source ++ "\n" ++
  "Published: " ++ a.published_at

/-- The string `articles_text = "\n\n".join(...)`. -/
def articles_text (articles : List NewsArticle) : String :=
  String.intercalate "\n\n" (articles.map articleBlock)

/-- The f-string `prompt` of `generate_news_summary`. -/
def buildPrompt (today : String) (articles : List NewsArticle) : String :=
  "\n        Based on the following news articles, create a concise \"Top 10 News\" summary. \n        Select the 10 most important and diverse stories, and present them in a clear, \n        numbered format with brief descriptions.\n        \n        News Articles:\n        " ++
  articles_text articles ++
  "\n        \n        Format your response as:\n        TOP 10 NEWS - " ++
  today ++
  "\n        \n        1. [Brief headline] - [Concise summary in 1-2 sentences]\n        2. [Brief headline] - [Concise summary in 1-2 sentences]\n        ...and so on\n        \n        Focus on the most newsworthy and impactful stories.\n        "

/-- The numbered-entry loop of `_generate_fallback_summary`, starting the
enumeration at `i`. -/
def fallbackEntries : Nat → List NewsArticle → String
  | _, [] => ""
  | i, a :: rest =>
    toString i ++ ". " ++ a.title ++ "\n" ++
    "   " ++ a.description ++ "\n" ++
    "   Source: " ++ a.source ++ "\n\n" ++
    fallbackEntries (i + 1) rest

/-- The body of `_generate_fallback_summary`: date header, then the first
ten articles numbered from 1. -/
def generate_fallback_summary (today : String) (articles : List NewsArticle) :
    String :=
  "TOP 10 NEWS - " ++ today ++ "\n\n" ++ fallbackEntries 1 (articles.take 10)

/-- Result of `generate_news_summary`: the returned text (or propagated
exception) and the prompts sent to the LLM. -/
structure SummaryResult where
  text : Except PyExc String
  llmCalls : List String
  deriving Repr

/-- The body of `generate_news_summary`: fixed message on an empty input
with no LLM call; otherwise one chat-completion call with the built
prompt, whose `except Exception` handler turns any failure into the
fallback summary. -/
def generate_news_summary (w : World) (articles : List NewsArticle) :
    SummaryResult :=
  if articles.isEmpty then
    { text := .ok "No news articles available at this time.", llmCalls := [] }
  else
    let prompt := buildPrompt w.today articles
    match w.llmResponse prompt with
    | .ok content => { text := .ok content.trim, llmCalls := [prompt] }
    | .error _ =>
      { text := .ok (generate_fallback_summary w.today articles)
      , llmCalls := [prompt] }

/-- Result of `save_summary`: the returned value (or propagated
exception), the filename used, and whether an error was logged. -/
structure SaveResult where
  result : Except PyExc Unit
  filename : String
  loggedError : Bool
  deriving Repr

/-- The body of `save_summary`: timestamped filename, then a write whose
`except IOError` handler logs the error and falls through to a normal
return. -/
def save_summary (w : World) (summary : String) : SaveResult :=
  let filename := "news_summary_" ++ w.timestamp ++ ".txt"
  match w.writeOutcome filename summary with
  | .ok _ => { result := .ok (), filename := filename, loggedError := false }
  | .error _ => { result := .ok (), filename := filename, loggedError := true }

/-- The body of `run_news_update`: fetch with the default limit, then
summarize, then save; an exception raised by any step propagates to the
caller. -/
def run_news_update (cfg : Config) (w : World) : Except PyExc Unit :=
  match (fetch_news_articles cfg w 20).articles with
  | .error e => .error e
  | .ok articles =>
    match (generate_news_summary w articles).text with
    | .error e => .error e
    | .ok summary => (save_summary w summary).result

/-- The credential check in `NewsAggregator.__init__`: raises
`ValueError` when `OPENAI_API_KEY` is not truthy, otherwise yields the
configuration the instance holds. -/
def NewsAggregator.init (env : Env) : Except PyExc Config :=
  if truthy env.openai_api_key = false then
    .error .valueError
  else
    .ok { news_api_key := env.news_api_key
        , openai_api_key := env.openai_api_key }

/-- Observable outcome of `main` up to the entry of the infinite
scheduler loop: whether the user-facing configuration-error message was
printed, how many pipeline runs were started before (or at) loop entry,
and whether the `while True` polling loop was entered. -/
structure MainResult where
  configErrorPrinted : Bool
  pipelineRuns : Nat
  enteredLoop : Bool
  deriving DecidableEq, Repr

/-- The body of `main` up to loop entry: the `OPENAI_API_KEY` guard
prints the configuration error and returns before constructing the
aggregator; otherwise the aggregator is constructed, one startup run is
executed, and the polling loop is entered (an exception escaping the
startup run would prevent loop entry). -/
def mainEntry (env : Env) (w : World) : MainResult :=
  if truthy env.openai_api_key = false then
    { configErrorPrinted := true, pipelineRuns := 0, enteredLoop := false }
  else
    match NewsAggregator.init env with
    | .error _ =>
      { configErrorPrinted := false, pipelineRuns := 0, enteredLoop := false }
    | .ok cfg =>
      match run_news_update cfg w with
      | .error _ =>
        { configErrorPrinted := false, pipelineRuns := 1, enteredLoop := false }
      | .ok _ =>
        { configErrorPrinted := false, pipelineRuns := 1, enteredLoop := true }

/-! ## Concrete inputs used by witnesses and counterexamples -/

/-- Configuration with the news credential absent and the LLM credential
set. -/
def cfgNoKey : Config := { news_api_key := none, openai_api_key := some "sk" }

/-- Configuration with both credentials set. -/
def cfgWithKey : Config :=
  { news_api_key := some "nk", openai_api_key := some "sk" }

/-- World whose HTTP requests succeed with empty bodies, whose LLM call
fails, and whose file write succeeds. -/
def demoWorld : World :=
  { netResponse := fun _ _ => .ok []
  , llmResponse := fun _ => .error "boom"
  , writeOutcome := fun _ _ => .ok ()
  , today := "January 01, 2025"
  , timestamp := "20250101_000000" }

/-- World identical to `demoWorld` except that the file write fails with
an I/O error. -/
def failWriteWorld : World :=
  { netResponse := fun _ _ => .ok []
  , llmResponse := fun _ => .error "boom"
  , writeOutcome := fun _ _ => .error "disk full"
  , today := "January 01, 2025"
  , timestamp := "20250101_000000" }

/-- A raw article with a missing description, rejected by the adapter. -/
def badArticle : RawArticle :=
  { title := some "t", description := none, url := "u"
  , publishedAt := "2024-01-01T00:00:00Z", sourceName := "s" }

/-- World whose HTTP requests all succeed but return only `badArticle`. -/
def filteredWorld : World :=
  { netResponse := fun _ _ => .ok [badArticle]
  , llmResponse := fun _ => .ok "content"
  , writeOutcome := fun _ _ => .ok ()
  , today := "January 01, 2025"
  , timestamp := "20250101_000000" }

/-! ## Helper lemmas -/

/-- The category loop either accumulates a list or aborts with
`requests.RequestException`; no other exception kind can escape the
`try` body. -/
theorem fetchLoop_ok_or_reqexc (w : World) (ps : Nat) (cats : List String) :
    (fetchLoop w ps cats).2 = .error PyExc.requestException ∨
      ∃ l, (fetchLoop w ps cats).2 = .ok l := by
  induction cats with
  | nil => exact .inr ⟨[], rfl⟩
  | cons c rest ih =>
    cases hn : w.netResponse c ps with
    | error e => left; simp [fetchLoop, hn]
    | ok raws =>
      rcases ih with he | ⟨l, hl⟩
      · left; simp [fetchLoop, hn, he, Except.map]
      · right
        exact ⟨collectArticles raws ++ l, by simp [fetchLoop, hn, hl, Except.map]⟩

/-- The value `fetch_news_articles` returns is always an `ok` list: the
mock branches and the slicing branch cover every case. -/
theorem fetch_articles_ok (cfg : Config) (w : World) (limit : Nat) :
    ∃ l, (fetch_news_articles cfg w limit).articles = .ok l := by
  unfold fetch_news_articles
  by_cases h : truthy cfg.news_api_key = false
  · simp [h]
  · simp only [h, if_false]
    rcases fetchLoop_ok_or_reqexc w (limit / categories.length) categories with
      he | ⟨l, hl⟩
    · rw [he]; exact ⟨_, rfl⟩
    · rw [hl]; exact ⟨_, rfl⟩

/-- The text `generate_news_summary` returns is always an `ok` string:
the catch-all handler covers every LLM failure. -/
theorem summary_text_ok (w : World) (articles : List NewsArticle) :
    ∃ s, (generate_news_summary w articles).text = .ok s := by
  unfold generate_news_summary
  by_cases h : articles.isEmpty
  · simp [h]
  · simp only [h, if_false]
    cases hr : w.llmResponse (buildPrompt w.today articles) with
    | ok content => exact ⟨_, rfl⟩
    | error e => exact ⟨_, rfl⟩

/-- The result of `save_summary` is always a normal return: the
`except IOError` handler covers every write failure. -/
theorem save_result_ok (w : World) (s : String) :
    (save_summary w s).result = .ok () := by
  cases hw : w.writeOutcome ("news_summary_" ++ w.timestamp ++ ".txt") s with
  | ok u => simp [save_summary, hw]
  | error e => simp [save_summary, hw]

/-- The inner article loop computes filter-then-convert: the kept
articles are exactly those whose title and description are truthy, in
their original order. -/
theorem collectArticles_eq (raws : List RawArticle) :
    collectArticles raws =
      (raws.filter fun a => truthy a.title && truthy a.description).map
        convertArticle := by
  induction raws with
  | nil => rfl
  | cons a rest ih =>
    by_cases h : (truthy a.title && truthy a.description) = true
    · simp [collectArticles, List.filter_cons, h, ih]
    · simp only [Bool.not_eq_true] at h
      simp [collectArticles, List.filter_cons, h, ih]

/-- When every raw article of a response lacks a truthy title or
description, the inner loop keeps nothing. -/
theorem collectArticles_eq_nil (raws : List RawArticle)
    (h : ∀ a ∈ raws, (truthy a.title && truthy a.description) = false) :
    collectArticles raws = [] := by
  induction raws with
  | nil => rfl
  | cons a rest ih =>
    have ha := h a (List.mem_cons_self a rest)
    simp only [collectArticles, ha, Bool.false_eq_true, if_false]
    exact ih fun b hb => h b (List.mem_cons_of_mem a hb)

/-- When every category request succeeds and every returned article is
rejected by the title/description check, the category loop returns the
empty accumulation. -/
theorem fetchLoop_ok_nil (w : World) (ps : Nat) (cats : List String)
    (h : ∀ c ∈ cats, ∃ raws, w.netResponse c ps = .ok raws ∧
        ∀ a ∈ raws, (truthy a.title && truthy a.description) = false) :
    (fetchLoop w ps cats).2 = .ok [] := by
  induction cats with
  | nil => rfl
  | cons c rest ih =>
    obtain ⟨raws, hr, hall⟩ := h c (List.mem_cons_self c rest)
    have h2 := ih fun d hd => h d (List.mem_cons_of_mem c hd)
    simp [fetchLoop, hr, h2, Except.map, collectArticles_eq_nil raws hall]

/-- Every request the category loop issues carries the pageSize it was
given. -/
theorem fetchLoop_requests_pageSize (w : World) (ps : Nat)
    (cats : List String) :
    ∀ r ∈ (fetchLoop w ps cats).1, r.2 = ps := by
  induction cats with
  | nil => intro r hr; simp [fetchLoop] at hr
  | cons c rest ih =>
    intro r hr
    cases hn : w.netResponse c ps with
    | error e =>
      simp [fetchLoop, hn] at hr
      rw [hr]
    | ok raws =>
      simp only [fetchLoop, hn] at hr
      rcases List.mem_cons.mp hr with h1 | h2
      · rw [h1]
      · exact ih r h2

/-- The category loop over a non-empty category list issues at least the
first request. -/
theorem fetchLoop_requests_ne_nil (w : World) (ps : Nat) (c : String)
    (rest : List String) : (fetchLoop w ps (c :: rest)).1 ≠ [] := by
  cases hn : w.netResponse c ps <;> simp [fetchLoop, hn]

/-- In credentialed mode the requests `fetch_news_articles` reports are
exactly those of the category loop, whatever branch the handler takes. -/
theorem fetch_requests_eq (cfg : Config) (w : World) (limit : Nat)
    (hkey : truthy cfg.news_api_key = true) :
    (fetch_news_articles cfg w limit).requests =
      (fetchLoop w (limit / categories.length) categories).1 := by
  unfold fetch_news_articles
  simp only [hkey, Bool.true_eq_false, if_false]
  rcases fetchLoop_ok_or_reqexc w (limit / categories.length) categories with
    he | ⟨l, hl⟩
  · rw [he]
  · rw [hl]

/-! ## Claims -/

/-- C1: for every configuration and every sequence of external-call
outcomes, a single pipeline run (fetch, then summarize, then save)
completes normally: `run_news_update` never propagates an exception to
its caller. -/
theorem run_news_update_never_raises (cfg : Config) (w : World) :
    run_news_update cfg w = .ok () := by
  obtain ⟨l, hl⟩ := fetch_articles_ok cfg w 20
  obtain ⟨s, hs⟩ := summary_text_ok w l
  simp [run_news_update, hl, hs, save_result_ok]

/-- C2 counterexample: with the news credential absent (a mock-data path)
and limit 0, `fetch_news_articles` returns the two mock entries — more
entries than the limit allows. -/
theorem fetch_truncation_counterexample :
    (fetch_news_articles cfgNoKey demoWorld 0).articles =
        .ok get_mock_articles ∧
      get_mock_articles.length = 2 ∧ ¬(get_mock_articles.length ≤ 0) :=
  ⟨rfl, rfl, by decide⟩

/-- C2 (amended): for every limit ≥ 0 and every upstream outcome, the
list `fetch_news_articles` returns either has at most `limit` entries or
is exactly the fixed mock sequence — the mock-data paths return the mock
list without truncating it to the limit. -/
theorem fetch_truncation_amended (cfg : Config) (w : World) (limit : Nat)
    (l : List NewsArticle)
    (h : (fetch_news_articles cfg w limit).articles = .ok l) :
    l.length ≤ limit ∨ l = get_mock_articles := by
  unfold fetch_news_articles at h
  by_cases hk : truthy cfg.news_api_key = false
  · simp only [hk, if_true] at h
    right
    injection h with h
    exact h.symm
  · simp only [hk, if_false] at h
    rcases fetchLoop_ok_or_reqexc w (limit / categories.length) categories with
      he | ⟨l2, hl⟩
    · rw [he] at h
      right
      injection h with h
      exact h.symm
    · rw [hl] at h
      left
      injection h with h
      rw [← h]
      exact List.length_take_le limit l2

/-- C2 witness: the amended bound applied at the missing-credential
mock path with limit 0. -/
theorem fetch_truncation_amended_witness :
    get_mock_articles.length ≤ 0 ∨ get_mock_articles = get_mock_articles :=
  fetch_truncation_amended cfgNoKey demoWorld 0 get_mock_articles rfl

/-- C3: for every configuration in which the news credential is absent,
`fetch_news_articles` returns exactly the fixed mock sequence and issues
no network request. -/
theorem fetch_missing_credential_mock (cfg : Config) (w : World)
    (limit : Nat) (h : cfg.news_api_key = none) :
    fetch_news_articles cfg w limit =
      { articles := .ok get_mock_articles, requests := [] } := by
  simp [fetch_news_articles, h, truthy]

/-- C3 witness: the mock path evaluated at a concrete credential-free
configuration. -/
theorem fetch_missing_credential_mock_witness :
    fetch_news_articles cfgNoKey demoWorld 20 =
      { articles := .ok get_mock_articles, requests := [] } :=
  fetch_missing_credential_mock cfgNoKey demoWorld 20 rfl

/-- C4: for every non-empty article list, whenever the LLM call fails
with any exception the summarizer returns the deterministic fallback —
the TOP 10 NEWS header with the current date, followed by the first at
most ten input articles in input order, each rendered with its title,
description and source verbatim — after exactly one attempted LLM
call. -/
theorem summary_llm_failure_fallback (w : World)
    (articles : List NewsArticle) (e : String) (hne : articles ≠ [])
    (hfail : w.llmResponse (buildPrompt w.today articles) = .error e) :
    generate_news_summary w articles =
      { text := .ok ("TOP 10 NEWS - " ++ w.today ++ "\n\n" ++
          fallbackEntries 1 (articles.take 10))
      , llmCalls := [buildPrompt w.today articles] } := by
  have hE : articles.isEmpty = false := by
    simp [List.isEmpty_iff, hne]
  simp [generate_news_summary, hE, hfail, generate_fallback_summary]

/-- C4 witness: the fallback evaluated on the mock articles in a world
whose LLM call fails. -/
theorem summary_llm_failure_fallback_witness :
    generate_news_summary demoWorld get_mock_articles =
      { text := .ok ("TOP 10 NEWS - " ++ demoWorld.today ++ "\n\n" ++
          fallbackEntries 1 (get_mock_articles.take 10))
      , llmCalls := [buildPrompt demoWorld.today get_mock_articles] } :=
  summary_llm_failure_fallback demoWorld get_mock_articles "boom"
    (by decide) rfl

/-- C5: for every raw API response, the adapter loop excludes every
article whose title or description is absent or empty, includes every
article with both fields truthy, and preserves the relative upstream
order: it equals filter-then-convert. -/
theorem adapter_filters_and_preserves_order (raws : List RawArticle) :
    collectArticles raws =
      (raws.filter fun a => truthy a.title && truthy a.description).map
        convertArticle :=
  collectArticles_eq raws

/-- C6: summarizing the empty article sequence returns the fixed
no-articles message and performs no LLM call. -/
theorem summary_empty_input (w : World) :
    generate_news_summary w [] =
      { text := .ok "No news articles available at this time."
      , llmCalls := [] } :=
  rfl

/-- C7: for every summary text and every outcome of the file write,
`save_summary` returns normally; an I/O failure is logged and never
propagated to the caller. -/
theorem save_summary_never_raises (w : World) (s : String) :
    (save_summary w s).result = .ok () ∧
      ∀ e, w.writeOutcome ("news_summary_" ++ w.timestamp ++ ".txt") s =
          .error e →
        (save_summary w s).loggedError = true := by
  refine ⟨save_result_ok w s, fun e he => ?_⟩
  simp [save_summary, he]

/-- C7 witness: a failing write in a concrete world returns normally and
logs the error. -/
theorem save_summary_never_raises_witness :
    (save_summary failWriteWorld "x").result = .ok () ∧
      (save_summary failWriteWorld "x").loggedError = true :=
  ⟨(save_summary_never_raises failWriteWorld "x").1,
    (save_summary_never_raises failWriteWorld "x").2 "disk full" rfl⟩

/-- C8: for every configuration missing the mandatory LLM credential,
startup is fatal: the process prints the user-facing configuration
error, performs zero pipeline runs, and never enters the scheduler
loop. -/
theorem main_missing_llm_credential (env : Env) (w : World)
    (h : env.openai_api_key = none) :
    mainEntry env w =
      { configErrorPrinted := true, pipelineRuns := 0
      , enteredLoop := false } := by
  simp [mainEntry, h, truthy]

/-- C8 witness: a concrete environment without the LLM credential. -/
theorem main_missing_llm_credential_witness :
    mainEntry { news_api_key := some "nk", openai_api_key := none }
        demoWorld =
      { configErrorPrinted := true, pipelineRuns := 0
      , enteredLoop := false } :=
  main_missing_llm_credential
    { news_api_key := some "nk", openai_api_key := none } demoWorld rfl

/-- C9: the mock substitution happens only on the missing-credential and
transport-failure paths: a credentialed run whose requests all succeed
but whose returned articles all lack a truthy title or description
yields the empty list, not the (non-empty) mock sequence, so a
credentialed run can feed zero articles to the summarizer. -/
theorem fetch_credentialed_empty_not_mock (cfg : Config) (w : World)
    (limit : Nat) (hkey : truthy cfg.news_api_key = true)
    (hresp : ∀ c ∈ categories, ∃ raws,
        w.netResponse c (limit / categories.length) = .ok raws ∧
          ∀ a ∈ raws, (truthy a.title && truthy a.description) = false) :
    (fetch_news_articles cfg w limit).articles = .ok [] ∧
      get_mock_articles ≠ [] := by
  constructor
  · have h2 := fetchLoop_ok_nil w (limit / categories.length) categories hresp
    simp [fetch_news_articles, hkey, h2]
  · decide

/-- C9 witness: a concrete credentialed world whose only returned
article lacks a description. -/
theorem fetch_credentialed_empty_not_mock_witness :
    (fetch_news_articles cfgWithKey filteredWorld 20).articles = .ok [] ∧
      get_mock_articles ≠ [] :=
  fetch_credentialed_empty_not_mock cfgWithKey filteredWorld 20 rfl
    (fun c _hc => ⟨[badArticle], rfl, by decide⟩)

/-- C10: in credentialed mode there are 3 fixed categories, at least one
request is issued, and every issued request carries pageSize
`limit / 3` (integer division); in particular, for every limit below 3
each request asks for page size 0. -/
theorem fetch_per_category_page_size (cfg : Config) (w : World)
    (limit : Nat) (hkey : truthy cfg.news_api_key = true) :
    categories.length = 3 ∧
      (fetch_news_articles cfg w limit).requests ≠ [] ∧
      ∀ r ∈ (fetch_news_articles cfg w limit).requests,
        r.2 = limit / 3 ∧ (limit < 3 → r.2 = 0) := by
  refine ⟨rfl, ?_, ?_⟩
  · rw [fetch_requests_eq cfg w limit hkey]
    simp only [categories]
    exact fetchLoop_requests_ne_nil w _ _ _
  · intro r hr
    rw [fetch_requests_eq cfg w limit hkey] at hr
    have hps := fetchLoop_requests_pageSize w (limit / categories.length)
      categories r hr
    have h3 : categories.length = 3 := rfl
    rw [h3] at hps
    exact ⟨hps, fun hlt => by rw [hps]; omega⟩

/-- C10 witness: with limit 2 the requests issued all carry page size
0 = 2 / 3. -/
theorem fetch_per_category_page_size_witness :
    categories.length = 3 ∧
      (fetch_news_articles cfgWithKey demoWorld 2).requests ≠ [] ∧
      ∀ r ∈ (fetch_news_articles cfgWithKey demoWorld 2).requests,
        r.2 = 2 / 3 ∧ (2 < 3 → r.2 = 0) :=
  fetch_per_category_page_size cfgWithKey demoWorld 2 rfl
